import Mathlib

/-!
Verification development for the nMigen QuickLogic vendor platform
(`nmigen/vendor/quicklogic.py`, class `QuicklogicPlatform`).

The Python class is shallowly embedded: platform attributes become a
`Platform` structure, the Python `ValueError`s raised by
`create_missing_domain` become an `Except` error value carrying the
message text built at the raise site, and the nMigen `Module` built by
`create_missing_domain` becomes an explicit record of the submodule
instances, the added clock domains, the combinational clock assignment
and the `ResetSynchronizer` placement.
-/

set_option autoImplicit false

namespace Quicklogic

/-- A Python value stored in an oscillator-parameter attribute: either an
`int`, or some non-`int` value (only its `repr` text matters to the code,
which interpolates it into the error message with `{!r}`). -/
inductive OscValue where
  | int (n : ℤ)
  | nonInt (reprText : String)
deriving DecidableEq, Repr

/-- Python `repr` of an oscillator-parameter value, as interpolated by
`str.format` with `{!r}` in the error messages. -/
def OscValue.reprText' : OscValue → String
  | .int n => toString n
  | .nonInt r => r

/-- The platform attributes read by the code under verification.
`osc_div`/`osc_freq` are `Option` because the Python code probes them with
`hasattr` (subclasses may simply not define them). -/
structure Platform where
  device : String
  package : String
  default_clk : Option String
  default_rst : Option String
  osc_div : Option OscValue
  osc_freq : Option OscValue
deriving DecidableEq, Repr

/-- A `ValueError` raised by `create_missing_domain`: the offending
parameter, its allowed range, and the formatted message text. -/
structure ConfigError where
  param : String
  lo : ℤ
  hi : ℤ
  message : String
deriving DecidableEq, Repr

/-- A reference to a net wired into the synthesized module: an internal
`Signal()` (named after the Python local), the input of a requested
resource pin, or a constant. -/
inductive NetRef where
  | sig (n : String)
  | pin (n : String)
  | const (v : ℕ)
deriving DecidableEq, Repr

/-- An `Instance(...)` submodule: the cell type and its `o_`-prefixed port
bindings, in source order. -/
structure CellInstance where
  cellType : String
  oPorts : List (String × NetRef)
deriving DecidableEq, Repr

/-- The nMigen `Module` returned by `create_missing_domain`, recorded as
data: submodule instances, added clock domains, combinational
`ClockSignal(d).eq(net)` assignments, and `ResetSynchronizer(rst, domain)`
submodules. -/
structure SyncModule where
  instances : List CellInstance
  domains : List String
  combClock : List (String × NetRef)
  resetSyncs : List (NetRef × String)
deriving DecidableEq, Repr

/-- The test `not isinstance(v, int) or v < lo or v > hi` applied to an
oscillator-parameter attribute value. -/
def oscOutOfRange (v : OscValue) (lo hi : ℤ) : Bool :=
  match v with
  | .int n => decide (n < lo) || decide (hi < n)
  | .nonInt _ => true

/-- `hasattr` fails, or the value is out of range: the combined condition
under which `create_missing_domain` raises for one oscillator parameter
(the code raises separately for the two cases, with the same parameter
name and range in the message). -/
def oscParamBad (v : Option OscValue) (lo hi : ℤ) : Bool :=
  match v with
  | none => true
  | some w => oscOutOfRange w lo hi

/-- The range part of the two `osc_div` error messages (the source writes
this literal at both raise sites; the out-of-range site appends
`, not {!r}`). -/
def oscDivMsg : String := "OSC divider (osc_div) must be an integer between 2 and 512"

/-- The range part of the two `osc_freq` error messages. -/
def oscFreqMsg : String :=
  "OSC frequency (osc_freq) must be an integer between 2100000 and 80000000"

/-- The reset source wired into the `ResetSynchronizer`: the requested
`default_rst` pin input if one is configured, else `Const(0)`. -/
def rstSource (p : Platform) : NetRef :=
  match p.default_rst with
  | some rst => .pin rst
  | none => .const 0

/-- The tail of the module body shared by both clock sources: add
`ClockDomain("sync")`, drive `ClockSignal("sync")` combinationally from
`clk_i`, and instantiate `ResetSynchronizer(rst_i, domain="sync")`. -/
def syncModule (p : Platform) (instances : List CellInstance) (clk_i : NetRef) : SyncModule :=
  { instances := instances
    domains := ["sync"]
    combClock := [("sync", clk_i)]
    resetSyncs := [(rstSource p, "sync")] }

/-- The two-instance oscillator chain built when `default_clk` is
`"sys_clk0"`: `Instance("qlal4s3b_cell_macro", o_Sys_Clk0=sys_clk0)` then
`Instance("gclkbuff", o_A=sys_clk0, o_Z=clk_i)`. -/
def oscChain : List CellInstance :=
  [ { cellType := "qlal4s3b_cell_macro", oPorts := [("Sys_Clk0", .sig "sys_clk0")] },
    { cellType := "gclkbuff", oPorts := [("A", .sig "sys_clk0"), ("Z", .sig "clk_i")] } ]

/-- `QuicklogicPlatform.create_missing_domain`, translated clause by
clause from the source.  `Except.error` models a raised `ValueError`;
`Except.ok none` models the implicit `return None` taken when the guard
`name == "sync" and self.default_clk is not None` is false. -/
def create_missing_domain (p : Platform) (name : String) :
    Except ConfigError (Option SyncModule) :=
  match p.default_clk with
  | some default_clk =>
    if name = "sync" then
      if default_clk = "sys_clk0" then
        match p.osc_div with
        | none =>
          .error { param := "osc_div", lo := 2, hi := 512, message := oscDivMsg }
        | some dv =>
          if oscOutOfRange dv 2 512 then
            .error { param := "osc_div", lo := 2, hi := 512,
                     message := oscDivMsg ++ ", not " ++ dv.reprText' }
          else
            match p.osc_freq with
            | none =>
              .error { param := "osc_freq", lo := 2100000, hi := 80000000,
                       message := oscFreqMsg }
            | some fv =>
              if oscOutOfRange fv 2100000 80000000 then
                .error { param := "osc_freq", lo := 2100000, hi := 80000000,
                         message := oscFreqMsg ++ ", not " ++ fv.reprText' }
              else
                .ok (some (syncModule p oscChain (.sig "clk_i")))
      else
        .ok (some (syncModule p [] (.pin default_clk)))
    else
      .ok none
  | none => .ok none

/-- A platform with the internal oscillator selected as default clock, for
concrete evaluation of the validation logic. -/
def oscPlatform (dv fv : Option OscValue) : Platform :=
  { device := "ql-eos-s3", package := "PD64", default_clk := some "sys_clk0",
    default_rst := none, osc_div := dv, osc_freq := fv }

/-- A platform whose default clock is an external pin, for concrete
evaluation. -/
def extPlatform : Platform :=
  { device := "ql-eos-s3", package := "PD64", default_clk := some "clk_12mhz",
    default_rst := some "rst_btn", osc_div := none, osc_freq := none }

/-- One element of `platform.iter_port_constraints_bits()`: port name,
physical pin name, and the ordered attribute map. -/
structure PortConstraintBit where
  port_name : String
  pin_name : String
  attrs : List (String × String)
deriving DecidableEq, Repr

/-- One element of `platform.iter_clock_constraints()`: net signal name,
optional external port signal name, and frequency in Hz.  The frequency is
a rational so that the period division in the `.sdc` template is exact. -/
structure ClockConstraint where
  net_name : String
  port_signal : Option String
  frequency : ℚ
deriving DecidableEq, Repr

/-- Body lines of the `.pcf` template: one `set_io` line per port
constraint bit. -/
def pcfLines (ports : List PortConstraintBit) : List String :=
  ports.map (fun pc => "set_io " ++ pc.port_name ++ " " ++ pc.pin_name)

/-- One property line of the `.xdc` template, for a single attribute of a
single port constraint bit.  `esc` is the `tcl_escape` filter (defined in
the base class, outside this file's source).  The template's literal text
puts a stray closing brace between the escaped port name and the closing
bracket. -/
def xdcAttrLine (esc : String → String) (port_name attr_name attr_value : String) : String :=
  "set_property " ++ attr_name ++ " " ++ attr_value ++ " [get_ports "
    ++ esc port_name ++ " \x7d]"

/-- Body lines of the `.xdc` template: the nested loop over port
constraint bits and their attributes, then the `add_constraints` override
or its placeholder default. -/
def xdcLines (esc : String → String) (override : Option String)
    (ports : List PortConstraintBit) : List String :=
  (ports.map (fun pc =>
      pc.attrs.map (fun a => xdcAttrLine esc pc.port_name a.1 a.2))).flatten
    ++ [override.getD "# (add_constraints placeholder)"]

/-- A rendered `create_clock` line of the `.sdc` template, kept
structured: the period value `100000000/frequency` and the
`ascii_escape`d port signal name. -/
structure SdcClockLine where
  period : ℚ
  port : String
deriving DecidableEq, Repr

/-- The `.sdc` template body, structured: one `create_clock` line per
clock constraint whose `port_signal` is not none, skipping the rest. -/
def sdcClockLines (esc : String → String) (clocks : List ClockConstraint) :
    List SdcClockLine :=
  clocks.filterMap (fun c =>
    c.port_signal.map (fun ps => { period := 100000000 / c.frequency, port := esc ps }))

/-- The `.sdc` template body as text; `fmt` renders the period numeral. -/
def sdcTextLines (esc : String → String) (fmt : ℚ → String)
    (clocks : List ClockConstraint) : List String :=
  (sdcClockLines esc clocks).map
    (fun l => "create_clock -period " ++ fmt l.period ++ " " ++ l.port)

/-- The substitution context consumed by the five file templates. -/
structure RenderContext where
  name : String
  autogenerated : String
  emit_verilog : String
  emit_debug_verilog : String
  ports : List PortConstraintBit
  clocks : List ClockConstraint
  add_constraints : Option String
deriving DecidableEq, Repr

/-- Render the five `QuicklogicPlatform.file_templates` entries as
(filename, text) pairs.  `tclEsc` and `asciiEsc` are the two escaping
filters and `fmt` the numeral formatter, all supplied by the base
templating engine outside this source file. -/
def renderFiles (tclEsc asciiEsc : String → String) (fmt : ℚ → String)
    (c : RenderContext) : List (String × String) :=
  [ (c.name ++ ".v", "/* " ++ c.autogenerated ++ " */\n" ++ c.emit_verilog),
    (c.name ++ ".debug.v", "/* " ++ c.autogenerated ++ " */\n" ++ c.emit_debug_verilog),
    (c.name ++ ".pcf",
      String.intercalate "\n" (("# " ++ c.autogenerated) :: pcfLines c.ports)),
    (c.name ++ ".xdc",
      String.intercalate "\n"
        (("# " ++ c.autogenerated) :: xdcLines tclEsc c.add_constraints c.ports)),
    (c.name ++ ".sdc",
      String.intercalate "\n"
        (("# " ++ c.autogenerated) :: sdcTextLines asciiEsc fmt c.clocks)) ]

/-- A clock signal together with its `attrs` mapping (an nMigen `Signal`
as seen by `add_clock_constraint`). -/
structure ClockSignalRef where
  name : String
  attrs : List (String × String)
deriving DecidableEq, Repr

/-- Python dict assignment `d[k] = v` on an ordered key/value list:
overwrite in place if the key exists, else append. -/
def setAttr : List (String × String) → String → String → List (String × String)
  | [], k, v => [(k, v)]
  | a :: rest, k, v => if a.1 = k then (k, v) :: rest else a :: setAttr rest k v

/-- Modelled from the spec: `super().add_clock_constraint(clock, frequency)`
records the constraint in the platform's clock-constraint collection; the
base class `TemplatedPlatform` is not under src/. -/
def base_add_clock_constraint (cs : List (String × ℚ)) (clock : ClockSignalRef)
    (frequency : ℚ) : List (String × ℚ) :=
  cs ++ [(clock.name, frequency)]

/-- `QuicklogicPlatform.add_clock_constraint`: call the base method, then
set `clock.attrs["keep"] = "TRUE"`.  Returns the updated constraint
collection and the updated clock signal. -/
def add_clock_constraint (cs : List (String × ℚ)) (clock : ClockSignalRef)
    (frequency : ℚ) : List (String × ℚ) × ClockSignalRef :=
  (base_add_clock_constraint cs clock frequency,
   { clock with attrs := setAttr clock.attrs "keep" "TRUE" })

/-- An nMigen `Clock` constraint object: just a frequency. -/
structure Clock where
  frequency : ℚ
deriving DecidableEq, Repr

/-- `QuicklogicPlatform.default_clk_constraint`.  `base` stands for
`super().default_clk_constraint` (base class, not under src/).  `none`
models the `AttributeError`/`TypeError` Python would raise when
`osc_freq`/`osc_div` is absent or not a number while `default_clk` is
`"sys_clk0"`. -/
def default_clk_constraint (p : Platform) (base : Clock) : Option Clock :=
  if p.default_clk = some "sys_clk0" then
    match p.osc_freq, p.osc_div with
    | some (.int f), some (.int d) => some { frequency := (f : ℚ) / (d : ℚ) }
    | _, _ => none
  else some base

/-- One rendered entry of `QuicklogicPlatform.command_templates`: the
executable, whether it is wrapped in `invoke_tool(...)` (the proper tool
path) or invoked directly, and the argument list. -/
structure ToolCommand where
  exe : String
  viaInvokeTool : Bool
  args : List String
deriving DecidableEq, Repr

/-- `QuicklogicPlatform.command_templates`, rendered against a design
name, the platform's extra source files, device and package identifiers,
and the textual oscillator flags interpolated into the last command. -/
def command_templates (files : List String) (name device pkg oscFreq oscDiv : String) :
    List ToolCommand :=
  [ { exe := "symbiflow_synth", viaInvokeTool := true,
      args := ["-t", name, "-v"] ++ files ++ [name ++ ".v", "-d", device,
               "-p", name ++ ".pcf", "-P", pkg, "-x", name ++ ".xdc"] },
    { exe := "symbiflow_pack", viaInvokeTool := true,
      args := ["-e", name ++ ".eblif", "-d", device, "-s", name ++ ".sdc"] },
    { exe := "symbiflow_place", viaInvokeTool := true,
      args := ["-e", name ++ ".eblif", "-d", device, "-p", name ++ ".pcf",
               "-n", name ++ ".net", "-P", pkg, "-s", name ++ ".sdc"] },
    { exe := "symbiflow_route", viaInvokeTool := true,
      args := ["-e", name ++ ".eblif", "-d", device, "-s", name ++ ".sdc"] },
    { exe := "symbiflow_write_fasm", viaInvokeTool := true,
      args := ["-e", name ++ ".eblif", "-d", device, "-s", name ++ ".sdc"] },
    { exe := "symbiflow_write_bitstream", viaInvokeTool := true,
      args := ["-f", name ++ ".fasm", "-d", device, "-P", pkg, "-b", name ++ ".bit"] },
    { exe := "python3", viaInvokeTool := false,
      args := ["-m", "quicklogic_fasm.bitstream_to_openocd", name ++ ".bit",
               name ++ ".openocd", "--osc-freq", oscFreq, "--fpga-clk-divider", oscDiv] } ]

/-- The substitution expressions written in each of the five entries of
`file_templates` (transcribed from the template bodies), used to state
which platform attributes a template references. -/
def fileTemplateRefs : List (List String) :=
  [ ["autogenerated", "emit_verilog()"],
    ["autogenerated", "emit_debug_verilog()"],
    ["autogenerated", "platform.iter_port_constraints_bits()", "port_name", "pin_name"],
    ["autogenerated", "platform.iter_port_constraints_bits()", "attrs.items()",
     "attr_name", "attr_value", "port_name|tcl_escape", "get_override(add_constraints)"],
    ["autogenerated", "platform.iter_clock_constraints()", "port_signal",
     "100000000/frequency", "port_signal.name|ascii_escape"] ]

/-- The substitution expressions written in each of the seven entries of
`command_templates` (transcribed from the template bodies).  These are
class attributes: the same templates apply to every build, whatever the
platform's `default_clk` is. -/
def commandTemplateRefs (_p : Platform) : List (List String) :=
  [ ["invoke_tool(symbiflow_synth)", "name", "platform.iter_files", "file",
     "platform.device", "platform.package"],
    ["invoke_tool(symbiflow_pack)", "name", "platform.device"],
    ["invoke_tool(symbiflow_place)", "name", "platform.device", "platform.package"],
    ["invoke_tool(symbiflow_route)", "name", "platform.device"],
    ["invoke_tool(symbiflow_write_fasm)", "name", "platform.device"],
    ["invoke_tool(symbiflow_write_bitstream)", "name", "platform.device",
     "platform.package"],
    ["name", "platform.osc_freq", "platform.osc_div"] ]

/-- `QuicklogicPlatform.required_tools`. -/
def required_tools : List String :=
  ["symbiflow_synth", "symbiflow_pack", "symbiflow_place", "symbiflow_route",
   "symbiflow_write_fasm", "symbiflow_write_bitstream", "symbiflow_write_openocd"]

/-- A concrete render context for witnesses: one port with one attribute
and one externally clocked 100 MHz domain. -/
def demoContext : RenderContext :=
  { name := "top", autogenerated := "Automatically generated.",
    emit_verilog := "module top; endmodule",
    emit_debug_verilog := "module top; endmodule",
    ports := [{ port_name := "led", pin_name := "F5", attrs := [("IO_TYPE", "LVCMOS33")] }],
    clocks := [{ net_name := "clk", port_signal := some "clk100", frequency := 100000000 }],
    add_constraints := none }

/-! ## Helper lemmas -/

/-- Unfolding of `create_missing_domain` for the `"sync"` domain when the
default clock is the internal oscillator. -/
theorem create_missing_domain_sys_clk0_eq (p : Platform)
    (h : p.default_clk = some "sys_clk0") :
    create_missing_domain p "sync" =
      (match p.osc_div with
       | none => .error { param := "osc_div", lo := 2, hi := 512, message := oscDivMsg }
       | some dv =>
         if oscOutOfRange dv 2 512 then
           .error { param := "osc_div", lo := 2, hi := 512,
                    message := oscDivMsg ++ ", not " ++ dv.reprText' }
         else
           match p.osc_freq with
           | none =>
             .error { param := "osc_freq", lo := 2100000, hi := 80000000,
                      message := oscFreqMsg }
           | some fv =>
             if oscOutOfRange fv 2100000 80000000 then
               .error { param := "osc_freq", lo := 2100000, hi := 80000000,
                        message := oscFreqMsg ++ ", not " ++ fv.reprText' }
             else .ok (some (syncModule p oscChain (.sig "clk_i")))) := by
  unfold create_missing_domain
  rw [h]
  rfl

/-- Inversion: if `create_missing_domain` returned a module, the requested
name was `"sync"` and the module is the `syncModule` built either from the
internal oscillator chain or from the requested default-clock pin. -/
theorem create_missing_domain_ok_inv (p : Platform) (name : String) (m : SyncModule)
    (hm : create_missing_domain p name = .ok (some m)) :
    name = "sync" ∧
    ((p.default_clk = some "sys_clk0" ∧ m = syncModule p oscChain (.sig "clk_i")) ∨
     (∃ pin, p.default_clk = some pin ∧ pin ≠ "sys_clk0" ∧
       m = syncModule p [] (.pin pin))) := by
  by_cases hname : name = "sync"
  case neg =>
    rcases hclk : p.default_clk with _ | clkname <;>
      simp [create_missing_domain, hclk, hname] at hm
  subst hname
  refine ⟨rfl, ?_⟩
  rcases hclk : p.default_clk with _ | clkname
  · simp [create_missing_domain, hclk] at hm
  by_cases hsys : clkname = "sys_clk0"
  · subst hsys
    rcases hdv : p.osc_div with _ | dv
    · simp [create_missing_domain, hclk, hdv] at hm
    cases hb : oscOutOfRange dv 2 512 with
    | true => simp [create_missing_domain, hclk, hdv, hb] at hm
    | false =>
    rcases hfv : p.osc_freq with _ | fv
    · simp [create_missing_domain, hclk, hdv, hb, hfv] at hm
    cases hbf : oscOutOfRange fv 2100000 80000000 with
    | true => simp [create_missing_domain, hclk, hdv, hb, hfv, hbf] at hm
    | false =>
    simp [create_missing_domain, hclk, hdv, hb, hfv, hbf] at hm
    exact Or.inl ⟨rfl, hm.symm⟩
  · simp [create_missing_domain, hclk, hsys] at hm
    exact Or.inr ⟨clkname, rfl, hsys, hm.symm⟩

/-- After `setAttr l k v` (Python `d[k] = v`), looking up `k` yields `v`. -/
theorem lookup_setAttr (l : List (String × String)) (k v : String) :
    List.lookup k (setAttr l k v) = some v := by
  induction l with
  | nil => simp [setAttr, List.lookup]
  | cons a rest ih =>
    by_cases hak : a.1 = k
    · simp [setAttr, hak, List.lookup]
    · simp only [setAttr, if_neg hak, List.lookup]
      have : (k == a.1) = false := by
        simp [beq_iff_eq]
        exact fun hk => hak hk.symm
      rw [this]
      exact ih

/-! ## Claim theorems -/

/-- C1: with the internal oscillator selected (`default_clk = "sys_clk0"`),
`create_missing_domain "sync"` raises a configuration error naming
`osc_div` and the range 2..512 whenever `osc_div` is missing, non-integer
or out of range; if `osc_div` passes it raises an error naming `osc_freq`
and the range 2100000..80000000 whenever `osc_freq` is missing,
non-integer or out of range; if both pass the module is produced.  The
final two conjuncts pin the bad-parameter predicate to exactly the stated
integer ranges, so divider 1 and 513 and frequency 2099999 fail while
divider 2 and 512 and frequency 2100000 and 80000000 succeed. -/
theorem create_missing_domain_osc_validation (p : Platform)
    (h : p.default_clk = some "sys_clk0") :
    (oscParamBad p.osc_div 2 512 = true →
      ∃ e, create_missing_domain p "sync" = .error e ∧ e.param = "osc_div" ∧
        e.lo = 2 ∧ e.hi = 512 ∧
        (e.message = oscDivMsg ∨
         ∃ v, p.osc_div = some v ∧ e.message = oscDivMsg ++ ", not " ++ v.reprText')) ∧
    (oscParamBad p.osc_div 2 512 = false →
      oscParamBad p.osc_freq 2100000 80000000 = true →
      ∃ e, create_missing_domain p "sync" = .error e ∧ e.param = "osc_freq" ∧
        e.lo = 2100000 ∧ e.hi = 80000000 ∧
        (e.message = oscFreqMsg ∨
         ∃ v, p.osc_freq = some v ∧ e.message = oscFreqMsg ++ ", not " ++ v.reprText')) ∧
    (oscParamBad p.osc_div 2 512 = false →
      oscParamBad p.osc_freq 2100000 80000000 = false →
      create_missing_domain p "sync" = .ok (some (syncModule p oscChain (.sig "clk_i")))) ∧
    (∀ n : ℤ, oscParamBad (some (.int n)) 2 512 = true ↔ (n < 2 ∨ 512 < n)) ∧
    (∀ n : ℤ, oscParamBad (some (.int n)) 2100000 80000000 = true ↔
      (n < 2100000 ∨ 80000000 < n)) := by
  refine ⟨?_, ?_, ?_, ?_, ?_⟩
  · intro hbad
    have hc := create_missing_domain_sys_clk0_eq p h
    rcases hdv : p.osc_div with _ | dv
    · simp only [hdv] at hc
      exact ⟨_, hc, rfl, rfl, rfl, Or.inl rfl⟩
    · simp only [oscParamBad, hdv] at hbad
      simp only [hdv, hbad, if_true] at hc
      exact ⟨_, hc, rfl, rfl, rfl, Or.inr ⟨dv, rfl, rfl⟩⟩
  · intro hgood hbad
    have hc := create_missing_domain_sys_clk0_eq p h
    rcases hdv : p.osc_div with _ | dv
    · simp [oscParamBad, hdv] at hgood
    simp only [oscParamBad, hdv] at hgood
    simp only [hdv, hgood, if_false, Bool.false_eq_true] at hc
    rcases hfv : p.osc_freq with _ | fv
    · simp only [hfv] at hc
      exact ⟨_, hc, rfl, rfl, rfl, Or.inl rfl⟩
    · simp only [oscParamBad, hfv] at hbad
      simp only [hfv, hbad, if_true] at hc
      exact ⟨_, hc, rfl, rfl, rfl, Or.inr ⟨fv, rfl, rfl⟩⟩
  · intro hgood hgoodf
    have hc := create_missing_domain_sys_clk0_eq p h
    rcases hdv : p.osc_div with _ | dv
    · simp [oscParamBad, hdv] at hgood
    simp only [oscParamBad, hdv] at hgood
    simp only [hdv, hgood, if_false, Bool.false_eq_true] at hc
    rcases hfv : p.osc_freq with _ | fv
    · simp [oscParamBad, hfv] at hgoodf
    simp only [oscParamBad, hfv] at hgoodf
    simp only [hfv, hgoodf, if_false, Bool.false_eq_true] at hc
    exact hc
  · intro n
    simp [oscParamBad, oscOutOfRange]
  · intro n
    simp [oscParamBad, oscOutOfRange]

/-- Witness for C1: the out-of-range divider 1 (with a valid frequency)
raises the `osc_div` configuration error with range 2..512. -/
theorem create_missing_domain_osc_validation_witness :
    ∃ e, create_missing_domain
        (oscPlatform (some (.int 1)) (some (.int 2100000))) "sync" = .error e ∧
      e.param = "osc_div" ∧ e.lo = 2 ∧ e.hi = 512 ∧
      (e.message = oscDivMsg ∨
       ∃ v, (oscPlatform (some (.int 1)) (some (.int 2100000))).osc_div = some v ∧
         e.message = oscDivMsg ++ ", not " ++ v.reprText') :=
  (create_missing_domain_osc_validation
    (oscPlatform (some (.int 1)) (some (.int 2100000))) rfl).1 (by decide)

/-- C4: `create_missing_domain` returns nothing for any name other than
`"sync"` and when no default clock is configured; whenever it does return
a module, that module adds exactly the one clock domain `"sync"`, drives
`ClockSignal("sync")` combinationally from the derived clock net (the
two-instance `qlal4s3b_cell_macro`/`gclkbuff` chain for the internal
oscillator, the requested `default_clk` pin otherwise), and instantiates a
`ResetSynchronizer` bridging the derived reset into the `"sync"`
domain. -/
theorem create_missing_domain_shape (p : Platform) (name : String) :
    (name ≠ "sync" → create_missing_domain p name = .ok none) ∧
    (p.default_clk = none → create_missing_domain p name = .ok none) ∧
    (∀ m, create_missing_domain p name = .ok (some m) →
      m.domains = ["sync"] ∧
      ∃ clk, m.combClock = [("sync", clk)] ∧
        m.resetSyncs = [(rstSource p, "sync")] ∧
        ((p.default_clk = some "sys_clk0" ∧ m.instances = oscChain ∧
            clk = NetRef.sig "clk_i") ∨
         (∃ pin, p.default_clk = some pin ∧ pin ≠ "sys_clk0" ∧
            m.instances = [] ∧ clk = NetRef.pin pin))) := by
  refine ⟨?_, ?_, ?_⟩
  · intro hne
    rcases hclk : p.default_clk with _ | c <;>
      simp [create_missing_domain, hclk, hne]
  · intro h0
    simp [create_missing_domain, h0]
  · intro m hm
    obtain ⟨-, hcase⟩ := create_missing_domain_ok_inv p name m hm
    rcases hcase with ⟨hclk, rfl⟩ | ⟨pin, hclk, hne, rfl⟩
    · exact ⟨rfl, NetRef.sig "clk_i", rfl, rfl, Or.inl ⟨hclk, rfl, rfl⟩⟩
    · exact ⟨rfl, NetRef.pin pin, rfl, rfl, Or.inr ⟨pin, hclk, hne, rfl, rfl⟩⟩

/-- Witness for C4: requesting the domain `"por"` takes no action, and the
module produced for `"sync"` on an external-pin platform defines exactly
the clock domain `"sync"`. -/
theorem create_missing_domain_shape_witness :
    create_missing_domain extPlatform "por" = .ok none ∧
    (syncModule extPlatform [] (NetRef.pin "clk_12mhz")).domains = ["sync"] :=
  ⟨(create_missing_domain_shape extPlatform "por").1 (by decide),
   ((create_missing_domain_shape extPlatform "sync").2.2
     (syncModule extPlatform [] (NetRef.pin "clk_12mhz")) rfl).1⟩

/-- C7: every module produced by `create_missing_domain` feeds the
`ResetSynchronizer` for `"sync"` from `rstSource`, which is the requested
`default_rst` pin input when a default reset is configured and `Const(0)`
otherwise. -/
theorem create_missing_domain_reset (p : Platform) (name : String) (m : SyncModule)
    (hm : create_missing_domain p name = .ok (some m)) :
    m.resetSyncs = [(rstSource p, "sync")] ∧
    (∀ rst, p.default_rst = some rst → rstSource p = NetRef.pin rst) ∧
    (p.default_rst = none → rstSource p = NetRef.const 0) := by
  obtain ⟨-, hcase⟩ := create_missing_domain_ok_inv p name m hm
  refine ⟨?_, ?_, ?_⟩
  · rcases hcase with ⟨-, rfl⟩ | ⟨pin, -, -, rfl⟩ <;> rfl
  · intro rst hrst
    simp [rstSource, hrst]
  · intro h0
    simp [rstSource, h0]

/-- Witness for C7: on a platform with `default_rst = "rst_btn"`, the
produced module's reset synchronizer is fed from the requested reset pin
input. -/
theorem create_missing_domain_reset_witness :
    (syncModule extPlatform [] (NetRef.pin "clk_12mhz")).resetSyncs =
      [(rstSource extPlatform, "sync")] ∧
    rstSource extPlatform = NetRef.pin "rst_btn" :=
  ⟨(create_missing_domain_reset extPlatform "sync"
      (syncModule extPlatform [] (NetRef.pin "clk_12mhz")) rfl).1,
   (create_missing_domain_reset extPlatform "sync"
      (syncModule extPlatform [] (NetRef.pin "clk_12mhz")) rfl).2.1 "rst_btn" rfl⟩

/-- C6: `add_clock_constraint` always marks the constrained clock signal
with the preserve attribute `keep = "TRUE"` (after recording the
constraint through the base class); and for every in-range oscillator
divider/frequency pair, `create_missing_domain "sync"` succeeds with
exactly one domain `"sync"` driven by the `clk_i` net. -/
theorem add_clock_constraint_keep (cs : List (String × ℚ)) (clock : ClockSignalRef)
    (f : ℚ) :
    List.lookup "keep" (add_clock_constraint cs clock f).2.attrs = some "TRUE" ∧
    (add_clock_constraint cs clock f).1 = cs ++ [(clock.name, f)] ∧
    (∀ p : Platform, ∀ dv fv : ℤ, p.default_clk = some "sys_clk0" →
      p.osc_div = some (.int dv) → p.osc_freq = some (.int fv) →
      2 ≤ dv → dv ≤ 512 → 2100000 ≤ fv → fv ≤ 80000000 →
      create_missing_domain p "sync" =
        .ok (some (syncModule p oscChain (NetRef.sig "clk_i"))) ∧
      (syncModule p oscChain (NetRef.sig "clk_i")).domains = ["sync"] ∧
      (syncModule p oscChain (NetRef.sig "clk_i")).combClock =
        [("sync", NetRef.sig "clk_i")]) := by
  refine ⟨lookup_setAttr clock.attrs "keep" "TRUE", rfl, ?_⟩
  intro p dv fv hclk hdv hfv h1 h2 h3 h4
  have hb : oscOutOfRange (.int dv) 2 512 = false := by
    simp only [oscOutOfRange, Bool.or_eq_false_iff, decide_eq_false_iff_not]
    omega
  have hbf : oscOutOfRange (.int fv) 2100000 80000000 = false := by
    simp only [oscOutOfRange, Bool.or_eq_false_iff, decide_eq_false_iff_not]
    omega
  have hc := create_missing_domain_sys_clk0_eq p hclk
  simp only [hdv, hfv, hb, hbf, Bool.false_eq_true, if_false] at hc
  exact ⟨hc, rfl, rfl⟩

/-- Witness for C6: a concrete clock signal receives `keep = "TRUE"`, and
the boundary pair divider 2 / frequency 2100000 synthesizes the domain. -/
theorem add_clock_constraint_keep_witness :
    List.lookup "keep"
      (add_clock_constraint [] { name := "clk", attrs := [] } 12000000).2.attrs =
      some "TRUE" ∧
    create_missing_domain (oscPlatform (some (.int 2)) (some (.int 2100000))) "sync" =
      .ok (some (syncModule (oscPlatform (some (.int 2)) (some (.int 2100000)))
        oscChain (NetRef.sig "clk_i"))) :=
  ⟨(add_clock_constraint_keep [] { name := "clk", attrs := [] } 12000000).1,
   ((add_clock_constraint_keep [] { name := "clk", attrs := [] } 12000000).2.2
     (oscPlatform (some (.int 2)) (some (.int 2100000))) 2 2100000 rfl rfl rfl
     (by decide) (by decide) (by decide) (by decide)).1⟩

/-- C9: when `default_clk` is `"sys_clk0"`, the platform's default clock
constraint is a `Clock` whose frequency is `osc_freq / osc_div` — for a
divider of at least 2 and a positive frequency this differs from the raw
oscillator frequency — and for any other default clock the base
implementation's constraint is returned unchanged. -/
theorem default_clk_constraint_divided (p : Platform) (base : Clock) :
    (∀ f d : ℤ, p.default_clk = some "sys_clk0" →
      p.osc_freq = some (.int f) → p.osc_div = some (.int d) →
      default_clk_constraint p base = some { frequency := (f : ℚ) / (d : ℚ) } ∧
      (2 ≤ d → 0 < f → (f : ℚ) / (d : ℚ) ≠ (f : ℚ))) ∧
    (p.default_clk ≠ some "sys_clk0" → default_clk_constraint p base = some base) := by
  constructor
  · intro f d hclk hf hd
    constructor
    · simp [default_clk_constraint, hclk, hf, hd]
    · intro hd2 hf0 heq
      have hdq : (d : ℚ) ≠ 0 := by
        exact_mod_cast (by omega : d ≠ 0)
      have hfq : (f : ℚ) ≠ 0 := by
        exact_mod_cast (by omega : f ≠ 0)
      rw [div_eq_iff hdq] at heq
      have h1 : (1 : ℚ) = (d : ℚ) :=
        mul_left_cancel₀ hfq (by rw [mul_one]; exact heq)
      have h2 : (1 : ℤ) = d := by exact_mod_cast h1
      omega
  · intro hne
    simp [default_clk_constraint, hne]

/-- Witness for C9: oscillator frequency 48 MHz with divider 4 yields the
divided-down 12 MHz constraint, which differs from the raw 48 MHz. -/
theorem default_clk_constraint_divided_witness :
    default_clk_constraint (oscPlatform (some (.int 4)) (some (.int 48000000)))
      { frequency := 12000000 } =
      some { frequency := ((48000000 : ℤ) : ℚ) / ((4 : ℤ) : ℚ) } ∧
    ((48000000 : ℤ) : ℚ) / ((4 : ℤ) : ℚ) ≠ ((48000000 : ℤ) : ℚ) :=
  ⟨((default_clk_constraint_divided (oscPlatform (some (.int 4)) (some (.int 48000000)))
      { frequency := 12000000 }).1 48000000 4 rfl rfl rfl).1,
   ((default_clk_constraint_divided (oscPlatform (some (.int 4)) (some (.int 48000000)))
      { frequency := 12000000 }).1 48000000 4 rfl rfl rfl).2 (by decide) (by decide)⟩

/-- C3: the `.sdc` body has exactly one `create_clock` line per clock
constraint with a defined external port, in order, whose period is exactly
`100000000 / frequency`; constraints with no external port contribute no
line; concretely, 100 MHz yields period 1 and 50 MHz yields period 2. -/
theorem sdc_create_clock_lines (esc : String → String) (clocks : List ClockConstraint) :
    sdcClockLines esc clocks =
      (clocks.filter (fun c => c.port_signal.isSome)).map
        (fun c => { period := 100000000 / c.frequency,
                    port := esc (c.port_signal.getD "") }) ∧
    (∀ l ∈ sdcClockLines esc clocks, ∃ c ∈ clocks, ∃ ps, c.port_signal = some ps ∧
      l.period = 100000000 / c.frequency ∧ l.port = esc ps) ∧
    ((∀ c ∈ clocks, c.port_signal = none) → sdcClockLines esc clocks = []) ∧
    sdcClockLines id
      [ { net_name := "clk", port_signal := some "clk100", frequency := 100000000 },
        { net_name := "aux", port_signal := none, frequency := 12000000 },
        { net_name := "clk2", port_signal := some "clk50", frequency := 50000000 } ] =
      [ { period := 1, port := "clk100" }, { period := 2, port := "clk50" } ] := by
  refine ⟨?_, ?_, ?_, ?_⟩
  case refine_4 =>
    simp only [sdcClockLines, List.filterMap_cons, List.filterMap_nil,
      Option.map_some', Option.map_none', id_eq, SdcClockLine.mk.injEq]
    norm_num
  · induction clocks with
    | nil => rfl
    | cons c rest ih =>
      cases hps : c.port_signal with
      | none => simpa [sdcClockLines, List.filterMap_cons, List.filter_cons, hps] using ih
      | some ps => simpa [sdcClockLines, List.filterMap_cons, List.filter_cons, hps] using ih
  · intro l hl
    simp only [sdcClockLines, List.mem_filterMap] at hl
    obtain ⟨c, hc, hf⟩ := hl
    rcases hps : c.port_signal with _ | ps <;> rw [hps] at hf
    · simp at hf
    · simp only [Option.map_some'] at hf
      cases hf
      exact ⟨c, hc, ps, hps, rfl, rfl⟩
  · induction clocks with
    | nil => intro _; rfl
    | cons c rest ih =>
      intro hall
      have h0 : c.port_signal = none := hall c (List.mem_cons_self c rest)
      have ih2 := ih (fun x hx => hall x (List.mem_cons_of_mem c hx))
      simp only [sdcClockLines, List.filterMap_cons, h0, Option.map_none'] at ih2 ⊢
      exact ih2

/-- Witness for C3: a list whose only constraint has no external port
renders no `create_clock` line. -/
theorem sdc_create_clock_lines_witness :
    sdcClockLines id [{ net_name := "pll", port_signal := none, frequency := 33000000 }]
      = [] :=
  (sdc_create_clock_lines id
    [{ net_name := "pll", port_signal := none, frequency := 33000000 }]).2.2.1
    (by decide)

/-- C8: rendering the five file templates is a pure deterministic
function: two render contexts that agree on every input component produce
byte-identical text for each of the five generated files. -/
theorem renderFiles_deterministic (tclEsc asciiEsc : String → String) (fmt : ℚ → String)
    (c1 c2 : RenderContext) (hname : c1.name = c2.name)
    (hauto : c1.autogenerated = c2.autogenerated)
    (hv : c1.emit_verilog = c2.emit_verilog)
    (hdbg : c1.emit_debug_verilog = c2.emit_debug_verilog)
    (hp : c1.ports = c2.ports) (hk : c1.clocks = c2.clocks)
    (ho : c1.add_constraints = c2.add_constraints) :
    renderFiles tclEsc asciiEsc fmt c1 = renderFiles tclEsc asciiEsc fmt c2 ∧
    (renderFiles tclEsc asciiEsc fmt c1).length = 5 := by
  obtain ⟨n1, a1, v1, d1, p1, k1, o1⟩ := c1
  obtain ⟨n2, a2, v2, d2, p2, k2, o2⟩ := c2
  cases hname; cases hauto; cases hv; cases hdbg; cases hp; cases hk; cases ho
  exact ⟨rfl, rfl⟩

/-- Witness for C8: rendering the demo context twice yields equal files. -/
theorem renderFiles_deterministic_witness :
    renderFiles id id (fun _ => "10.0") demoContext =
      renderFiles id id (fun _ => "10.0") demoContext ∧
    (renderFiles id id (fun _ => "10.0") demoContext).length = 5 :=
  renderFiles_deterministic id id (fun _ => "10.0") demoContext demoContext
    rfl rfl rfl rfl rfl rfl rfl

/-- C10: every attribute line of the rendered `.xdc` file has the literal
form `set_property <attr> <value> [get_ports <escaped port> \x7d]` — with
the stray closing brace between the escaped port name and the closing
bracket — and every line other than the override line has exactly that
form. -/
theorem xdc_attr_line_form (esc : String → String) (override : Option String)
    (ports : List PortConstraintBit) :
    (∀ pc ∈ ports, ∀ a ∈ pc.attrs,
      ("set_property " ++ a.1 ++ " " ++ a.2 ++ " [get_ports "
        ++ esc pc.port_name ++ " \x7d]") ∈ xdcLines esc override ports) ∧
    (∀ l ∈ xdcLines esc override ports,
      l = override.getD "# (add_constraints placeholder)" ∨
      ∃ pc ∈ ports, ∃ a ∈ pc.attrs,
        l = "set_property " ++ a.1 ++ " " ++ a.2 ++ " [get_ports "
          ++ esc pc.port_name ++ " \x7d]") ∧
    (∀ pn an av : String,
      xdcAttrLine esc pn an av =
        "set_property " ++ an ++ " " ++ av ++ " [get_ports " ++ esc pn ++ " \x7d]") := by
  refine ⟨?_, ?_, fun _ _ _ => rfl⟩
  · intro pc hpc a ha
    apply List.mem_append_left
    rw [List.mem_flatten]
    exact ⟨_, List.mem_map_of_mem _ hpc, List.mem_map_of_mem _ ha⟩
  · intro l hl
    rcases List.mem_append.mp hl with hin | hout
    · rw [List.mem_flatten] at hin
      obtain ⟨inner, hinner, hlin⟩ := hin
      obtain ⟨pc, hpc, rfl⟩ := List.mem_map.mp hinner
      obtain ⟨a, ha, rfl⟩ := List.mem_map.mp hlin
      exact Or.inr ⟨pc, hpc, a, ha, rfl⟩
    · exact Or.inl (List.mem_singleton.mp hout)

/-- Witness for C10: the single attribute of the demo port renders with
the stray closing brace before the bracket. -/
theorem xdc_attr_line_form_witness :
    ("set_property " ++ "IO_TYPE" ++ " " ++ "LVCMOS33" ++ " [get_ports "
      ++ id "led" ++ " \x7d]") ∈ xdcLines id none
        [{ port_name := "led", pin_name := "F5", attrs := [("IO_TYPE", "LVCMOS33")] }] :=
  (xdc_attr_line_form id none
    [{ port_name := "led", pin_name := "F5", attrs := [("IO_TYPE", "LVCMOS33")] }]).1
    { port_name := "led", pin_name := "F5", attrs := [("IO_TYPE", "LVCMOS33")] }
    (by decide) ("IO_TYPE", "LVCMOS33") (by decide)

/-- C5 counterexample: the seven commands are not fully determined by the
artifact filenames, design name and device/package identifiers alone —
with all of those fixed, changing only the oscillator-frequency flag
changes the (last) command. -/
theorem command_templates_osc_flag_dependence :
    command_templates [] "top" "ql-eos-s3" "PD64" "10000000" "2" ≠
      command_templates [] "top" "ql-eos-s3" "PD64" "20000000" "2" := by
  decide

/-- C5 amended: the command list is exactly seven invocations in the fixed
order synthesis, packing, placement, routing, `write_fasm`, bitstream
generation, then the programming-file conversion; the first six are fully
determined by the artifact filenames, design name and device/package
identifiers, while the conversion additionally takes the oscillator
frequency and divider flags; the conversion runs `python3 -m
quicklogic_fasm.bitstream_to_openocd` directly instead of invoking the
`symbiflow_write_openocd` tool that `required_tools` lists. -/
theorem command_templates_fixed_pipeline (files : List String)
    (name device pkg o1 o2 o1' o2' : String) :
    (command_templates files name device pkg o1 o2).length = 7 ∧
    (command_templates files name device pkg o1 o2).map ToolCommand.exe =
      ["symbiflow_synth", "symbiflow_pack", "symbiflow_place", "symbiflow_route",
       "symbiflow_write_fasm", "symbiflow_write_bitstream", "python3"] ∧
    (command_templates files name device pkg o1 o2).map ToolCommand.viaInvokeTool =
      [true, true, true, true, true, true, false] ∧
    (command_templates files name device pkg o1 o2).take 6 =
      (command_templates files name device pkg o1' o2').take 6 ∧
    (command_templates files name device pkg o1 o2).getLast? = some
      { exe := "python3", viaInvokeTool := false,
        args := ["-m", "quicklogic_fasm.bitstream_to_openocd", name ++ ".bit",
                 name ++ ".openocd", "--osc-freq", o1, "--fpga-clk-divider", o2] } ∧
    required_tools.contains "symbiflow_write_openocd" = true ∧
    ((command_templates files name device pkg o1 o2).all
      (fun cmd => cmd.exe != "symbiflow_write_openocd")) = true :=
  ⟨rfl, rfl, rfl, rfl, rfl, rfl, rfl⟩

/-- C2 counterexample: on a platform whose default clock is an external
pin, it is not true that no command template references the oscillator
parameters — the auxiliary conversion template references both. -/
theorem command_template_osc_refs_counterexample :
    extPlatform.default_clk = some "clk_12mhz" ∧
    ("clk_12mhz" : String) ≠ "sys_clk0" ∧
    ¬ (∀ t ∈ commandTemplateRefs extPlatform,
        "platform.osc_freq" ∉ t ∧ "platform.osc_div" ∉ t) := by
  refine ⟨rfl, by decide, by decide⟩

/-- C2 amended: none of the five file templates references `osc_freq` or
`osc_div`, and the first six command templates do not either, but for
every platform — whatever its default clock — the seventh (auxiliary
programming-file conversion) command template references both, so a build
that runs the full command pipeline needs those parameters even when the
default clock is an external pin or absent. -/
theorem osc_refs_only_in_conversion_command (p : Platform) :
    (fileTemplateRefs.all (fun t =>
      !(t.contains "platform.osc_freq") && !(t.contains "platform.osc_div"))) = true ∧
    (((commandTemplateRefs p).take 6).all (fun t =>
      !(t.contains "platform.osc_freq") && !(t.contains "platform.osc_div"))) = true ∧
    ((commandTemplateRefs p).getLast?.map (fun t =>
      t.contains "platform.osc_freq" && t.contains "platform.osc_div")) = some true ∧
    (commandTemplateRefs p).length = 7 :=
  ⟨rfl, rfl, rfl, rfl⟩

end Quicklogic
